import Mathlib

/-!
# Ideal-Resource-Identifier — verification of the sampling-and-estimation engine

Shallow embedding of the core logic of the repository:

* `docker_resource_estimator.py` — `estimate_resources` (CLI path): container
  start with fallback command chain, the stats sampling loop, aggregation,
  sizing recommendation and the printed instance-tier table;
* `app.py` — `estimate_single_image` (web single/bulk path, same sampling
  loop and aggregation), `get_instance_recommendations` (tier lookup),
  `api_live_test_stats` (live-monitor sampling path) and
  `api_stop_live_test` (live-run stop / cleanup path).

Numbers that Python holds as `int`/`float` are modelled as `Int`/`ℚ`;
dictionary fields read with `.get(..., default)` are modelled as `Option`
fields read with the same default.  Docker API calls are modelled by an
explicit environment recording which calls raise.
-/

namespace IdealResource

/-- The `cpu_usage` sub-object of a stats payload: `total_usage` is the
cumulative container CPU time, `percpu_usage` the per-CPU breakdown
(`.get("percpu_usage", [])` makes an absent array read as `[]`). -/
structure CpuUsage where
  total_usage : Int
  percpu_usage : List Int
  deriving DecidableEq, Repr

/-- The `cpu_stats` / `precpu_stats` sub-object: cumulative system-wide CPU
time and the optional `online_cpus` field (absent reads as `None`). -/
structure CpuStats where
  cpu_usage : CpuUsage
  system_cpu_usage : Int
  online_cpus : Option Nat
  deriving DecidableEq, Repr

/-- The `memory_stats` sub-object; only its `usage` field (bytes) is read. -/
structure MemoryStats where
  usage : Int
  deriving DecidableEq, Repr

/-- One raw stats payload as decoded from the Docker stats stream.
`memory_stats := none` models a payload without a `memory_stats` key, in
which case `stats.get("memory_stats", {}).get("usage", 0)` reads 0. -/
structure StatsPayload where
  cpu_stats : CpuStats
  precpu_stats : CpuStats
  memory_stats : Option MemoryStats
  deriving DecidableEq, Repr

/-- Delta `cpu_delta = cpu_total - precpu_total` (both read from the same payload:
the previous counters come from the payload's own `precpu_stats`). -/
def cpuDelta (p : StatsPayload) : Int :=
  p.cpu_stats.cpu_usage.total_usage - p.precpu_stats.cpu_usage.total_usage

/-- Delta `system_delta = system_cpu - presystem_cpu`. -/
def systemDelta (p : StatsPayload) : Int :=
  p.cpu_stats.system_cpu_usage - p.precpu_stats.system_cpu_usage

/-- Resolution of `online_cpus` in the source:
`online_cpus = cpu_stats.get("online_cpus")`; `if not online_cpus:` (true for
`None` and for `0`) fall back to `len(percpu_usage) if percpu_usage else 1`. -/
def resolveOnlineCpus (cs : CpuStats) : Nat :=
  let fallback := if cs.cpu_usage.percpu_usage = [] then 1
    else cs.cpu_usage.percpu_usage.length
  match cs.online_cpus with
  | some n => if n = 0 then fallback else n
  | none => fallback

/-- The CPU percentage formula of the source:
`(cpu_delta / system_delta) * online_cpus * 100.0`. -/
def cpuPercent (p : StatsPayload) : ℚ :=
  (cpuDelta p : ℚ) / (systemDelta p : ℚ) * (resolveOnlineCpus p.cpu_stats : ℚ) * 100

/-- Memory reading `mem_usage = stats.get("memory_stats", {}).get("usage", 0) / (1024 ** 2)`. -/
def memUsageMB (p : StatsPayload) : ℚ :=
  ((p.memory_stats.map MemoryStats.usage).getD 0 : ℚ) / (1024 ^ 2)

/-- The delta guard of the sampling loops:
`system_delta > 0 and cpu_delta >= 0`. -/
def deltaGuard (p : StatsPayload) : Prop :=
  systemDelta p > 0 ∧ cpuDelta p ≥ 0

instance (p : StatsPayload) : Decidable (deltaGuard p) := by
  unfold deltaGuard; infer_instance

/-! ## Sample collector (`estimate_resources` / `estimate_single_image` loop) -/

/-- The history buffers of one collection run: `cpu_usages`, `mem_usages`
and `sample_count`. -/
structure CollectState where
  cpu_usages : List ℚ
  mem_usages : List ℚ
  sample_count : Nat
  deriving DecidableEq, Repr

/-- One iteration body of the sampling loop shared (verbatim) by
`estimate_resources` (docker_resource_estimator.py lines 141–170) and
`estimate_single_image` (app.py lines 117–144): append the CPU percentage
only when the delta guard passes, always append the memory reading, always
increment `sample_count`. -/
def processSample (st : CollectState) (p : StatsPayload) : CollectState :=
  let cpu_usages := if deltaGuard p then st.cpu_usages ++ [cpuPercent p]
    else st.cpu_usages
  { cpu_usages := cpu_usages
    mem_usages := st.mem_usages ++ [memUsageMB p]
    sample_count := st.sample_count + 1 }

/-- The sampling loop applied to the list of payloads obtained before the
loop ended (by timeout, container exit, stream end or error): starting from
empty buffers, fold the iteration body over the payloads. -/
def collectStats (payloads : List StatsPayload) : CollectState :=
  payloads.foldl processSample { cpu_usages := [], mem_usages := [], sample_count := 0 }

/-! ## Live-monitor sampling path (`api_live_test_stats`) -/

/-- The per-container record kept in `live_containers`: CPU and memory
histories plus the `samples` counter. -/
structure LiveInfo where
  cpu_history : List ℚ
  mem_history : List ℚ
  samples : Nat
  deriving DecidableEq, Repr

/-- The CPU value computed by `api_live_test_stats` (app.py lines
2289–2291): `cpu_percent = 0` and only overwritten when the delta guard
passes. -/
def liveCpuPercent (p : StatsPayload) : ℚ :=
  if deltaGuard p then cpuPercent p else 0

/-- The history update of `api_live_test_stats` (app.py lines 2296–2299):
unconditionally append `cpu_percent` (0 when the guard failed) and the
memory reading, and increment `samples`. -/
def liveStatsUpdate (info : LiveInfo) (p : StatsPayload) : LiveInfo :=
  { cpu_history := info.cpu_history ++ [liveCpuPercent p]
    mem_history := info.mem_history ++ [memUsageMB p]
    samples := info.samples + 1 }

/-! ## Statistics aggregator -/

/-- Python `statistics.mean`: arithmetic mean of a list. -/
def mean (xs : List ℚ) : ℚ := xs.sum / (xs.length : ℚ)

/-- Python `max` over a nonempty list (the `[]` case is never reached by the
source, which guards emptiness first). -/
def listMax : List ℚ → ℚ
  | [] => 0
  | x :: r => r.foldl max x

/-- The structured cause carried by a failed run. -/
inductive EstimateError
  | emptyHistory
  deriving DecidableEq, Repr

/-- The `{average, peak}` pairs computed from a history. -/
structure AggregateStats where
  cpu_avg : ℚ
  cpu_peak : ℚ
  mem_avg : ℚ
  mem_peak : ℚ
  deriving DecidableEq, Repr

/-- The aggregation step of `estimate_resources` (docker_resource_estimator.py
lines 188–195) and `estimate_single_image` (app.py lines 158–164):
`if not cpu_usages or not mem_usages:` fail, otherwise means and maxima of
both series. -/
def aggregate (cpu_usages mem_usages : List ℚ) : Except EstimateError AggregateStats :=
  if cpu_usages = [] ∨ mem_usages = [] then .error .emptyHistory
  else .ok { cpu_avg := mean cpu_usages, cpu_peak := listMax cpu_usages
             mem_avg := mean mem_usages, mem_peak := listMax mem_usages }

/-! ## Sizing recommender -/

/-- Python `round` on a rational: round half to even (banker's rounding). -/
def pyRound (q : ℚ) : ℤ :=
  let n := Int.floor q
  let frac := q - (n : ℚ)
  if frac < 1 / 2 then n
  else if 1 / 2 < frac then n + 1
  else if n % 2 = 0 then n else n + 1

/-- Python `round(x, 2)`: round to 2 decimal places, half to even. -/
def pyRound2 (q : ℚ) : ℚ := (pyRound (q * 100) : ℚ) / 100

/-- Source formula `recommended_vcpu = max(1, round(peak_cpu / 80))`. -/
def recommended_vcpu (peak_cpu : ℚ) : ℤ := max 1 (pyRound (peak_cpu / 80))

/-- Source formula `recommended_ram = round(peak_mem * 1.5 / 1024, 2)` (GB). -/
def recommended_ram (peak_mem : ℚ) : ℚ := pyRound2 (peak_mem * 1.5 / 1024)

/-- A row of vendor instance names (AWS, GCP, Azure). -/
structure InstanceRec where
  aws : String
  gcp : String
  azure : String
  deriving DecidableEq, Repr

/-- Function `get_instance_recommendations` of app.py (lines 191–216): the if/elif
chain over `(vcpu, ram_gb)`. -/
def get_instance_recommendations (vcpu : ℤ) (ram_gb : ℚ) : InstanceRec :=
  if vcpu = 1 ∧ ram_gb ≤ 1 then { aws := "t3.micro", gcp := "e2-micro", azure := "B1s" }
  else if vcpu = 1 ∧ ram_gb ≤ 2 then { aws := "t3.small", gcp := "e2-small", azure := "B1ms" }
  else if vcpu = 2 then { aws := "t3.medium", gcp := "e2-medium", azure := "B2s" }
  else { aws := "t3.large+", gcp := "e2-standard+", azure := "B2ms+" }

/-- The instance names printed by the if/elif chain of `estimate_resources`
(docker_resource_estimator.py lines 210–217).  Note the catch-all line
prints `e2-standard` for GCP, without the `+`. -/
def cliInstanceLine (vcpu : ℤ) (ram_gb : ℚ) : InstanceRec :=
  if vcpu = 1 ∧ ram_gb ≤ 1 then { aws := "t3.micro", gcp := "e2-micro", azure := "B1s" }
  else if vcpu = 1 ∧ ram_gb ≤ 2 then { aws := "t3.small", gcp := "e2-small", azure := "B1ms" }
  else if vcpu = 2 then { aws := "t3.medium", gcp := "e2-medium", azure := "B2s" }
  else { aws := "t3.large+", gcp := "e2-standard", azure := "B2ms+" }

/-- The spec's ordered decision table (§4.4), as data: rows tried top-down,
first matching condition wins, with the catch-all row `{t3.large+,
e2-standard+, B2ms+}` when no row matches. -/
def tierRows : List ((ℤ → ℚ → Bool) × InstanceRec) :=
  [ (fun v r => decide (v = 1) && decide (r ≤ 1), { aws := "t3.micro", gcp := "e2-micro", azure := "B1s" }),
    (fun v r => decide (v = 1) && decide (r ≤ 2), { aws := "t3.small", gcp := "e2-small", azure := "B1ms" }),
    (fun v _ => decide (v = 2), { aws := "t3.medium", gcp := "e2-medium", azure := "B2s" }) ]

/-- Top-down evaluation of the spec's decision table. -/
def specTierTable (v : ℤ) (r : ℚ) : InstanceRec :=
  match tierRows.find? (fun row => row.1 v r) with
  | some row => row.2
  | none => { aws := "t3.large+", gcp := "e2-standard+", azure := "B2ms+" }

/-! ## Container start with fallback command chain -/

/-- The launch commands that appear in the source. -/
inductive StartCmd
  | tailKeepAlive
  | sleepInfinity
  | shSleepInfinity
  | imageDefault
  | custom (s : String)
  deriving DecidableEq, Repr

/-- Environment for container starts: which launch attempt succeeds, and
whether the first failure is of the "executable file not found" class. -/
structure StartEnv where
  succeeds : StartCmd → Bool
  execNotFound : Bool

/-- Container start of `estimate_resources` (docker_resource_estimator.py
lines 74–112): try the custom command, else `tail -f /dev/null`; on an
"executable file not found" APIError without a custom command, retry with
`sleep infinity`, then `/bin/sh -c sleep infinity`, then the image default;
first success wins.  Returns the attempts made in order and the winning
command (`none` = the run fails with a container-start error). -/
def estimatorStart (custom : Option String) (env : StartEnv) :
    List StartCmd × Option StartCmd :=
  let first := match custom with
    | some s => StartCmd.custom s
    | none => StartCmd.tailKeepAlive
  if env.succeeds first then ([first], some first)
  else if env.execNotFound ∧ custom = none then
    if env.succeeds .sleepInfinity then
      ([first, .sleepInfinity], some .sleepInfinity)
    else if env.succeeds .shSleepInfinity then
      ([first, .sleepInfinity, .shSleepInfinity], some .shSleepInfinity)
    else if env.succeeds .imageDefault then
      ([first, .sleepInfinity, .shSleepInfinity, .imageDefault], some .imageDefault)
    else ([first, .sleepInfinity, .shSleepInfinity, .imageDefault], none)
  else ([first], none)

/-- Container start of `estimate_single_image` (app.py lines 75–91): same
first attempt, but the fallback chain is only `sleep infinity` then the
image default — there is no shell-wrapped step. -/
def appStart (custom : Option String) (env : StartEnv) :
    List StartCmd × Option StartCmd :=
  let first := match custom with
    | some s => StartCmd.custom s
    | none => StartCmd.tailKeepAlive
  if env.succeeds first then ([first], some first)
  else if env.execNotFound ∧ custom = none then
    if env.succeeds .sleepInfinity then
      ([first, .sleepInfinity], some .sleepInfinity)
    else if env.succeeds .imageDefault then
      ([first, .sleepInfinity, .imageDefault], some .imageDefault)
    else ([first, .sleepInfinity, .imageDefault], none)
  else ([first], none)

/-! ## Cleanup and run finalization -/

/-- The Docker calls made while tearing a container down. -/
inductive CleanupOp
  | stop
  | remove
  deriving DecidableEq, Repr

/-- Environment for cleanup: whether `container.stop()` and
`container.remove()` raise. -/
structure DockerEnv where
  stopFails : Bool
  removeFails : Bool
  deriving DecidableEq, Repr

/-- The `finally` block of `estimate_resources` (docker_resource_estimator.py
lines 179–186) and `estimate_single_image` (app.py lines 149–155):
`try: container.stop(); container.remove() except: <log / pass>`.  Returns
the calls attempted; any exception is swallowed. -/
def cleanupContainer (env : DockerEnv) : List CleanupOp :=
  if env.stopFails then [.stop] else [.stop, .remove]

/-- The result record of a completed run: aggregate statistics plus the
sizing recommendation derived from the peaks. -/
structure RunResult where
  stats : AggregateStats
  vcpu : ℤ
  ram_gb : ℚ
  deriving DecidableEq, Repr

/-- Both `estimate_single_image` and `estimate_resources` from the end of the
sampling loop on: the `finally` cleanup always runs, then aggregation
(failing on an empty series) and the recommendation.  The payload list is
whatever prefix of the stream the loop consumed before it ended — by
timeout, container exit, stream end, error or interrupt — so the function
covers every way the collection phase can end.  Returns the cleanup calls
attempted and the run's primary result. -/
def finalizeRun (payloads : List StatsPayload) (env : DockerEnv) :
    List CleanupOp × Except EstimateError RunResult :=
  let st := collectStats payloads
  let ops := cleanupContainer env
  (ops, (aggregate st.cpu_usages st.mem_usages).map fun a =>
    { stats := a, vcpu := recommended_vcpu a.cpu_peak, ram_gb := recommended_ram a.mem_peak })

/-! ## Live-run stop (`api_stop_live_test`) -/

/-- The recommendation block computed by `api_stop_live_test` before
stopping the container (app.py lines 2350–2376); `none` when either history
is empty.  (`duration_sec` is wall-clock time and is not modelled.) -/
structure LiveRecommendation where
  vcpu : ℤ
  ram_gb : ℚ
  instances : InstanceRec
  cpu_avg : ℚ
  cpu_peak : ℚ
  mem_avg : ℚ
  mem_peak : ℚ
  samples : Nat
  deriving DecidableEq, Repr

/-- Recommendation computation of `api_stop_live_test`:
`if cpu_history and mem_history:` build the block, else `None`. -/
def computeRecommendations (info : LiveInfo) : Option LiveRecommendation :=
  if info.cpu_history ≠ [] ∧ info.mem_history ≠ [] then
    let cpu_peak := listMax info.cpu_history
    let mem_peak := listMax info.mem_history
    some { vcpu := recommended_vcpu cpu_peak
           ram_gb := recommended_ram mem_peak
           instances := get_instance_recommendations (recommended_vcpu cpu_peak)
             (recommended_ram mem_peak)
           cpu_avg := pyRound2 (mean info.cpu_history)
           cpu_peak := pyRound2 cpu_peak
           mem_avg := pyRound2 (mean info.mem_history)
           mem_peak := pyRound2 mem_peak
           samples := info.samples }
  else none

/-- The JSON response of `api_stop_live_test`. -/
inductive StopResponse
  | success (recommendations : Option LiveRecommendation)
  | error (msg : String)
  deriving DecidableEq, Repr

/-- The `live_containers` registry, keyed by container id. -/
def LiveRegistry := List (String × LiveInfo)

instance : DecidableEq LiveRegistry := by
  unfold LiveRegistry; infer_instance

/-- Route `api_stop_live_test` (app.py lines 2331–2388): look the container up
(absent → error response, no Docker call); compute the recommendations;
then, inside the same `try`, `container.stop()`, `container.remove()` and
`del live_containers[container_id]`.  An exception in stop or remove is
caught by the route's outer `except`, which returns an error response — the
registry entry is not deleted and the computed recommendations are
discarded.  Returns (response, registry afterwards, Docker calls made). -/
def apiStopLiveTest (registry : LiveRegistry) (cid : String) (env : DockerEnv) :
    StopResponse × LiveRegistry × List CleanupOp :=
  match List.find? (fun kv => decide (kv.1 = cid)) registry with
  | none => (.error "Container not found", registry, [])
  | some kv =>
    let recs := computeRecommendations kv.2
    if env.stopFails then (.error "stop failed", registry, [.stop])
    else if env.removeFails then (.error "remove failed", registry, [.stop, .remove])
    else (.success recs, List.filter (fun kv => decide (kv.1 ≠ cid)) registry, [.stop, .remove])

/-! ## Concrete payloads and registry entries used as test inputs -/

/-- A payload whose system counter did not advance (`system_delta = 0`)
while the container counter did (`cpu_delta = 100 ≥ 0`). -/
def stalePayload : StatsPayload :=
  { cpu_stats := { cpu_usage := { total_usage := 500, percpu_usage := [] }
                   system_cpu_usage := 1000, online_cpus := some 4 }
    precpu_stats := { cpu_usage := { total_usage := 400, percpu_usage := [] }
                      system_cpu_usage := 1000, online_cpus := some 4 }
    memory_stats := some { usage := 1048576 } }

/-- A typical first frame of a Docker stats stream: `precpu_stats` zeroed
(no previous reading), current counters populated, 2 MiB of memory. -/
def firstFrame : StatsPayload :=
  { cpu_stats := { cpu_usage := { total_usage := 50, percpu_usage := [] }
                   system_cpu_usage := 100, online_cpus := some 1 }
    precpu_stats := { cpu_usage := { total_usage := 0, percpu_usage := [] }
                      system_cpu_usage := 0, online_cpus := none }
    memory_stats := some { usage := 0 } }

/-- A frame without `online_cpus` whose per-CPU array has two entries:
`cpu_delta = 20`, `system_delta = 100`, resolved CPU count 2. -/
def twoCpuFrame : StatsPayload :=
  { cpu_stats := { cpu_usage := { total_usage := 30, percpu_usage := [10, 20] }
                   system_cpu_usage := 300, online_cpus := none }
    precpu_stats := { cpu_usage := { total_usage := 10, percpu_usage := [10, 10] }
                      system_cpu_usage := 200, online_cpus := none }
    memory_stats := some { usage := 3145728 } }

/-- A live run that has collected one CPU and one memory sample. -/
def demoInfo : LiveInfo := { cpu_history := [50], mem_history := [100], samples := 1 }

/-- A `live_containers` registry holding the single run `c1`. -/
def demoRegistry : LiveRegistry := [("c1", demoInfo)]

/-- Both cleanup calls succeed. -/
def allOk : DockerEnv := { stopFails := false, removeFails := false }

/-! ## C3 — sizing recommendation formulas -/

/-- C3: the recommender computes `vcpu = max(1, round(peakCpuPercent / 80))`
and `ramGB = round(peakMemMB * 1.5 / 1024, 2)` with round-half-to-even
rounding; `recommend(10, 100)` yields `vcpu = 1` and `ramGB = 0.15`
(`3/20`).  The value `recommended_vcpu 200 = 2` (200/80 = 2.5 rounding to
the even 2, where round-half-up would give 3) pins the rounding mode down
as banker's rounding. -/
theorem recommend_formulas :
    (∀ peak_cpu : ℚ, recommended_vcpu peak_cpu = max 1 (pyRound (peak_cpu / 80))) ∧
    (∀ peak_mem : ℚ, recommended_ram peak_mem = pyRound2 (peak_mem * 1.5 / 1024)) ∧
    recommended_vcpu 10 = 1 ∧ recommended_ram 100 = 3 / 20 ∧
    recommended_vcpu 200 = 2 :=
  ⟨fun _ => rfl, fun _ => rfl,
    by norm_num [recommended_vcpu, pyRound],
    by norm_num [recommended_ram, pyRound2, pyRound],
    by norm_num [recommended_vcpu, pyRound]⟩

/-! ## C4 — instance-tier decision table -/

/-- C4 (counterexample): the claim's catch-all triple is
`{t3.large+, e2-standard+, B2ms+}`, but on the CLI path the catch-all line
printed by `estimate_resources` at the claim's own input `(vcpu, ramGB) =
(1, 5)` names the GCP tier `e2-standard` without the `+`. -/
theorem cli_catchall_differs :
    cliInstanceLine 1 5 = { aws := "t3.large+", gcp := "e2-standard", azure := "B2ms+" } ∧
    (cliInstanceLine 1 5).gcp ≠ "e2-standard+" := by
  have h : cliInstanceLine 1 5 =
      { aws := "t3.large+", gcp := "e2-standard", azure := "B2ms+" } := by
    norm_num [cliInstanceLine]
  exact ⟨h, by rw [h]; decide⟩

/-- C4 (amended): `get_instance_recommendations` equals the spec's ordered
decision table evaluated top-down for every input, and `(1, 5)` falls
through to the catch-all in both paths; on the CLI path the catch-all's GCP
entry is `e2-standard` (no `+`) rather than the claimed `e2-standard+`. -/
theorem tier_table_topdown :
    (∀ (v : ℤ) (r : ℚ), get_instance_recommendations v r = specTierTable v r) ∧
    get_instance_recommendations 1 5 =
      { aws := "t3.large+", gcp := "e2-standard+", azure := "B2ms+" } ∧
    cliInstanceLine 1 5 =
      { aws := "t3.large+", gcp := "e2-standard", azure := "B2ms+" } := by
  refine ⟨?_, by norm_num [get_instance_recommendations], by norm_num [cliInstanceLine]⟩
  intro v r
  unfold get_instance_recommendations specTierTable tierRows
  by_cases h1 : v = 1 <;> by_cases h2 : r ≤ 1 <;> by_cases h3 : r ≤ 2 <;>
    by_cases h4 : v = 2 <;>
    simp [h1, h2, h3, h4, List.find?]

/-! ## C1 — handling of guard-failing snapshot pairs -/

/-- C1 (counterexample): `stalePayload` has `systemDelta = 0 ≤ 0`, yet in
the live-monitoring sampling path (`api_live_test_stats`) the sample is not
skipped: the value 0 is appended to the CPU history. -/
theorem live_path_records_zero :
    systemDelta stalePayload = 0 ∧
    (liveStatsUpdate { cpu_history := [], mem_history := [], samples := 0 }
      stalePayload).cpu_history = [0] := by
  constructor
  · decide
  · norm_num [liveStatsUpdate, liveCpuPercent, deltaGuard, systemDelta, stalePayload]

/-- C1 (amended): a snapshot pair with `systemDelta ≤ 0` or `cpuDelta < 0`
is excluded from the CPU history in the `estimate_resources` /
`estimate_single_image` sampling loops, but in the live-monitoring path
(`api_live_test_stats`) it is recorded as a 0 value in the CPU history. -/
theorem invalid_sample_skipped_or_zero (st : CollectState) (info : LiveInfo)
    (p : StatsPayload) (h : ¬ deltaGuard p) :
    (processSample st p).cpu_usages = st.cpu_usages ∧
    (liveStatsUpdate info p).cpu_history = info.cpu_history ++ [0] := by
  constructor
  · simp [processSample, if_neg h]
  · simp [liveStatsUpdate, liveCpuPercent, if_neg h]

/-- C1 (witness for the amended theorem), at the empty state and the stale
payload. -/
theorem invalid_sample_skipped_or_zero_witness :
    (processSample { cpu_usages := [], mem_usages := [], sample_count := 0 }
      stalePayload).cpu_usages = [] ∧
    (liveStatsUpdate { cpu_history := [], mem_history := [], samples := 0 }
      stalePayload).cpu_history = [] ++ [0] :=
  invalid_sample_skipped_or_zero
    { cpu_usages := [], mem_usages := [], sample_count := 0 }
    { cpu_history := [], mem_history := [], samples := 0 }
    stalePayload (by decide)

/-! ## C2 — aggregation fails on empty history, never returns zeros -/

/-- C2: `aggregate` returns the typed empty-history error exactly when one
of the series is empty (so it never returns a statistics record, all-zero
or otherwise, in that case), and on two non-empty series it returns the
`{average, peak}` pair of each series. -/
theorem aggregate_empty_guard (cpu mem : List ℚ) :
    (aggregate cpu mem = .error .emptyHistory ↔ cpu = [] ∨ mem = []) ∧
    (cpu ≠ [] → mem ≠ [] → aggregate cpu mem =
      .ok { cpu_avg := mean cpu, cpu_peak := listMax cpu
            mem_avg := mean mem, mem_peak := listMax mem }) := by
  unfold aggregate
  split_ifs with h
  · refine ⟨by simp [h], fun hc hm => ?_⟩
    rcases h with h | h
    · exact absurd h hc
    · exact absurd h hm
  · exact ⟨by simp [h], fun _ _ => rfl⟩

/-- C2 (witness): the empty CPU series fails even though the memory series
is non-empty, and a concrete two-sample history aggregates to its means and
maxima. -/
theorem aggregate_empty_guard_witness :
    aggregate [] [5] = .error .emptyHistory ∧
    aggregate [2, 4] [5] = .ok { cpu_avg := 3, cpu_peak := 4, mem_avg := 5, mem_peak := 5 } := by
  constructor
  · exact (aggregate_empty_guard [] [5]).1.mpr (Or.inl rfl)
  · have h := (aggregate_empty_guard [2, 4] [5]).2 (by decide) (by decide)
    rw [h]
    norm_num [mean, listMax]

/-! ## C5 — cleanup policy -/

/-- C5 (counterexample): on the live-run stop path, with a run `c1` whose
histories are non-empty (so recommendations were computed), a failing
`container.stop()` makes `api_stop_live_test` answer an error response —
the computed recommendations are discarded — and the registry entry is not
removed. -/
theorem live_cleanup_failure_replaces_result :
    (apiStopLiveTest demoRegistry "c1" { stopFails := true, removeFails := false }).1 =
      .error "stop failed" ∧
    (apiStopLiveTest demoRegistry "c1" { stopFails := true, removeFails := false }).2.1 =
      demoRegistry ∧
    (apiStopLiveTest demoRegistry "c1" { stopFails := true, removeFails := false }).2.2 =
      [.stop] ∧
    computeRecommendations demoInfo ≠ none := by
  refine ⟨rfl, rfl, rfl, by decide⟩

/-- C5 (amended): in `estimate_resources` / `estimate_single_image` the
`finally` cleanup is attempted exactly once — one `stop` call — no matter
how the collection phase ended, and a cleanup failure never changes the
run's primary result; but in `api_stop_live_test` a failing `stop` is
propagated as the response's error, replacing the computed recommendations
and leaving the registry entry in place. -/
theorem cleanup_swallowed_in_estimator_propagated_in_live
    (payloads : List StatsPayload) (env env' : DockerEnv)
    (registry : LiveRegistry) (cid : String) (kv : String × LiveInfo)
    (hfind : List.find? (fun kv => decide (kv.1 = cid)) registry = some kv)
    (hstop : env.stopFails = true) :
    (finalizeRun payloads env).2 = (finalizeRun payloads env').2 ∧
    ((finalizeRun payloads env).1.count CleanupOp.stop = 1) ∧
    (apiStopLiveTest registry cid env).1 = .error "stop failed" ∧
    (apiStopLiveTest registry cid env).2.1 = registry := by
  refine ⟨rfl, ?_, ?_, ?_⟩
  · have hops : (finalizeRun payloads env).1 = cleanupContainer env := rfl
    rw [hops]
    unfold cleanupContainer
    rw [hstop]
    decide
  · unfold apiStopLiveTest
    rw [hfind]
    simp [hstop]
  · unfold apiStopLiveTest
    rw [hfind]
    simp [hstop]

/-- C5 (witness for the amended theorem): one collected frame, stop
failing; the run result matches the all-ok run, exactly one stop attempt,
and the live endpoint propagates the failure. -/
theorem cleanup_policy_witness :
    (finalizeRun [firstFrame] { stopFails := true, removeFails := false }).2 =
      (finalizeRun [firstFrame] allOk).2 ∧
    ((finalizeRun [firstFrame] { stopFails := true, removeFails := false }).1.count
      CleanupOp.stop = 1) ∧
    (apiStopLiveTest demoRegistry "c1" { stopFails := true, removeFails := false }).1 =
      .error "stop failed" ∧
    (apiStopLiveTest demoRegistry "c1" { stopFails := true, removeFails := false }).2.1 =
      demoRegistry :=
  cleanup_swallowed_in_estimator_propagated_in_live [firstFrame]
    { stopFails := true, removeFails := false } allOk demoRegistry "c1"
    ("c1", demoInfo) (by decide) rfl

/-! ## C6 — first iteration of the sampling loop -/

/-- C6 (counterexample): on a first frame with zeroed `precpu_stats` (the
shape Docker sends for the first reading of a stream) and a positive
current system counter, the very first iteration does append a CPU sample
(here `(50 - 0) / (100 - 0) * 1 * 100 = 50`), contradicting the claimed
warm-up behaviour; its memory value is appended as well. -/
theorem first_frame_cpu_recorded :
    firstFrame.precpu_stats.cpu_usage.total_usage = 0 ∧
    firstFrame.precpu_stats.system_cpu_usage = 0 ∧
    (collectStats [firstFrame]).cpu_usages = [50] ∧
    (collectStats [firstFrame]).mem_usages = [0] := by
  refine ⟨rfl, rfl, ?_, ?_⟩
  · norm_num [collectStats, processSample, deltaGuard, systemDelta, cpuDelta, cpuPercent,
      resolveOnlineCpus, firstFrame]
  · norm_num [collectStats, processSample, memUsageMB, firstFrame]

/-- C6 (amended): the loop has no warm-up special case — the first
iteration appends a CPU sample exactly when its payload passes the delta
guard (computed from the payload's own `precpu_stats` fields, which are
zero on a true first frame), while its memory value is appended
unconditionally. -/
theorem first_iteration_guard_decides (p : StatsPayload) :
    (collectStats [p]).mem_usages = [memUsageMB p] ∧
    (collectStats [p]).cpu_usages = (if deltaGuard p then [cpuPercent p] else []) := by
  constructor
  · rfl
  · by_cases h : deltaGuard p <;> simp [collectStats, processSample, h]

/-! ## C7 — container-start fallback chain -/

/-- A start environment in which only the shell-wrapped infinite sleep
would succeed, and the initial failure is of the executable-not-found
class. -/
def shellOnlyEnv : StartEnv :=
  { succeeds := fun c => decide (c = .shSleepInfinity), execNotFound := true }

/-- C7 (counterexample): when only the shell-wrapped infinite sleep would
succeed, `estimate_resources` starts the container at step (2) of the
claimed chain, but `estimate_single_image` — also cited by the claim —
never attempts that step: it tries keep-alive, plain sleep, image default,
and the run fails with a container-start error. -/
theorem app_fallback_missing_shell_step :
    appStart none shellOnlyEnv =
      ([.tailKeepAlive, .sleepInfinity, .imageDefault], none) ∧
    estimatorStart none shellOnlyEnv =
      ([.tailKeepAlive, .sleepInfinity, .shSleepInfinity], some .shSleepInfinity) := by
  exact ⟨rfl, rfl⟩

/-- C7 (amended): with no custom command, a failing initial keep-alive
launch and an executable-not-found error, `estimate_resources` resolves the
start through the ordered chain (1) infinite sleep, (2) shell-wrapped
infinite sleep, (3) image default — first success wins, all failing gives a
start error — while `estimate_single_image` uses the shorter chain
(1) infinite sleep, (3) image default. -/
theorem fallback_chain_order (env : StartEnv)
    (hfail : env.succeeds .tailKeepAlive = false) (hnf : env.execNotFound = true) :
    (estimatorStart none env).2 =
      List.find? env.succeeds [.sleepInfinity, .shSleepInfinity, .imageDefault] ∧
    (appStart none env).2 =
      List.find? env.succeeds [.sleepInfinity, .imageDefault] := by
  unfold estimatorStart appStart
  cases h1 : env.succeeds .sleepInfinity <;>
    cases h2 : env.succeeds .shSleepInfinity <;>
    cases h3 : env.succeeds .imageDefault <;>
    simp [hfail, hnf, h1, h2, h3, List.find?]

/-- C7 (witness for the amended theorem), in the shell-only environment:
the CLI chain succeeds at the shell-wrapped step, the web chain fails. -/
theorem fallback_chain_order_witness :
    (estimatorStart none shellOnlyEnv).2 = some .shSleepInfinity ∧
    (appStart none shellOnlyEnv).2 = none := by
  have h := fallback_chain_order shellOnlyEnv (by decide) rfl
  rw [h.1, h.2]
  exact ⟨rfl, rfl⟩

/-! ## C8 — CPU sample formula and online-CPU resolution -/

/-- The claim's resolution rule, stated in its own words: the explicit
online-CPU field if present and nonzero, else the length of the per-CPU
usage array if present and non-empty, else 1. -/
def claimOnlineCpus (cs : CpuStats) : Nat :=
  match cs.online_cpus with
  | some n =>
    if n ≠ 0 then n
    else if cs.cpu_usage.percpu_usage ≠ [] then cs.cpu_usage.percpu_usage.length else 1
  | none =>
    if cs.cpu_usage.percpu_usage ≠ [] then cs.cpu_usage.percpu_usage.length else 1

/-- C8: for a snapshot pair with `systemDelta > 0` and `cpuDelta ≥ 0` the
loop appends exactly `(cpuDelta / systemDelta) * onlineCpuCount * 100`,
where the code's online-CPU resolution agrees with the claim's resolution
rule on every `cpu_stats` object. -/
theorem valid_sample_formula (st : CollectState) (p : StatsPayload)
    (h1 : systemDelta p > 0) (h2 : cpuDelta p ≥ 0) :
    (∀ cs : CpuStats, resolveOnlineCpus cs = claimOnlineCpus cs) ∧
    (processSample st p).cpu_usages = st.cpu_usages ++
      [(cpuDelta p : ℚ) / (systemDelta p : ℚ) * (claimOnlineCpus p.cpu_stats : ℚ) * 100] := by
  have hres : ∀ cs : CpuStats, resolveOnlineCpus cs = claimOnlineCpus cs := by
    intro cs
    obtain ⟨⟨tu, pcu⟩, sys, oc⟩ := cs
    cases oc with
    | none =>
      by_cases hp : pcu = [] <;> simp [resolveOnlineCpus, claimOnlineCpus, hp]
    | some n =>
      by_cases hn : n = 0
      · by_cases hp : pcu = [] <;> simp [resolveOnlineCpus, claimOnlineCpus, hn, hp]
      · simp [resolveOnlineCpus, claimOnlineCpus, hn]
  have hg : deltaGuard p := ⟨h1, h2⟩
  exact ⟨hres, by simp [processSample, if_pos hg, cpuPercent, hres]⟩

/-- C8 (witness): a frame with no explicit online-CPU field and a two-entry
per-CPU array — `cpuDelta = 20`, `systemDelta = 100`, resolved CPU count 2 —
records `20 / 100 * 2 * 100 = 40`. -/
theorem valid_sample_formula_witness :
    (processSample { cpu_usages := [], mem_usages := [], sample_count := 0 }
      twoCpuFrame).cpu_usages = [40] := by
  have h := (valid_sample_formula
    { cpu_usages := [], mem_usages := [], sample_count := 0 }
    twoCpuFrame (by decide) (by decide)).2
  rw [h]
  norm_num [cpuDelta, systemDelta, claimOnlineCpus, twoCpuFrame]
  decide

/-! ## C9 — idempotence of stopping a run -/

/-- When the id is absent from the registry, the stop endpoint answers
"Container not found", performs no Docker call and leaves the registry
unchanged. -/
theorem apiStop_not_found (registry : LiveRegistry) (cid : String) (env : DockerEnv)
    (h : List.find? (fun kv => decide (kv.1 = cid)) registry = none) :
    apiStopLiveTest registry cid env = (.error "Container not found", registry, []) := by
  unfold apiStopLiveTest
  rw [h]

/-- C9: once `stopRun` has answered success for a run (which deletes its
registry entry), calling it again on that run performs no stop/remove call
and leaves the stored state — the registry — exactly as the first call left
it, whatever the Docker environment of the second call. -/
theorem stopRun_idempotent (registry : LiveRegistry) (cid : String)
    (env : DockerEnv) (r : Option LiveRecommendation)
    (h : (apiStopLiveTest registry cid allOk).1 = .success r) :
    apiStopLiveTest (apiStopLiveTest registry cid allOk).2.1 cid env =
      (.error "Container not found", (apiStopLiveTest registry cid allOk).2.1, []) := by
  have hreg : (apiStopLiveTest registry cid allOk).2.1 =
      List.filter (fun kv => decide (kv.1 ≠ cid)) registry := by
    unfold apiStopLiveTest at h ⊢
    cases hfind : List.find? (fun kv => decide (kv.1 = cid)) registry with
    | none => rw [hfind] at h; simp at h
    | some kv => rfl
  apply apiStop_not_found
  rw [hreg, List.find?_eq_none]
  intro x hx
  have hmem := List.of_mem_filter hx
  simp only [decide_eq_true_eq] at hmem ⊢
  exact hmem

/-- C9 (witness): stopping the demo run once succeeds; the second stop on
the resulting registry is a pure "Container not found" answer with no
Docker call. -/
theorem stopRun_idempotent_witness :
    apiStopLiveTest (apiStopLiveTest demoRegistry "c1" allOk).2.1 "c1" allOk =
      (.error "Container not found", (apiStopLiveTest demoRegistry "c1" allOk).2.1, []) :=
  stopRun_idempotent demoRegistry "c1" allOk (computeRecommendations demoInfo) rfl

/-! ## C10 — memory history dominates CPU history -/

/-- Each loop iteration appends exactly one memory sample, increments the
counter by one, and appends at most one CPU sample. -/
theorem processSample_lengths (st : CollectState) (p : StatsPayload) :
    (processSample st p).mem_usages.length = st.mem_usages.length + 1 ∧
    (processSample st p).sample_count = st.sample_count + 1 ∧
    (processSample st p).cpu_usages.length ≤ st.cpu_usages.length + 1 := by
  refine ⟨by simp [processSample], rfl, ?_⟩
  by_cases h : deltaGuard p <;> simp [processSample, h]

/-- Folding the loop body over any payload list grows the buffers by at
most (and the memory buffer and counter by exactly) the number of
payloads. -/
theorem collect_lengths_aux (payloads : List StatsPayload) (st : CollectState) :
    (payloads.foldl processSample st).mem_usages.length =
      st.mem_usages.length + payloads.length ∧
    (payloads.foldl processSample st).sample_count =
      st.sample_count + payloads.length ∧
    (payloads.foldl processSample st).cpu_usages.length ≤
      st.cpu_usages.length + payloads.length := by
  induction payloads generalizing st with
  | nil => simp
  | cons p rest ih =>
    obtain ⟨m1, c1, u1⟩ := processSample_lengths st p
    obtain ⟨m2, c2, u2⟩ := ih (processSample st p)
    refine ⟨?_, ?_, ?_⟩ <;> simp only [List.foldl_cons, List.length_cons] <;> omega

/-- C10: after any run prefix the memory history has exactly
`sample_count` entries and at least as many entries as the CPU history; an
iteration whose payload lacks `memory_stats` still appends, recording 0;
and on the stale payload the loop counts one sample while the CPU series
stays empty, so the reported count exceeds the CPU series length. -/
theorem history_length_invariant (payloads : List StatsPayload) :
    (collectStats payloads).mem_usages.length = (collectStats payloads).sample_count ∧
    (collectStats payloads).cpu_usages.length ≤ (collectStats payloads).mem_usages.length ∧
    (∀ (st : CollectState) (p : StatsPayload),
      (processSample st { p with memory_stats := none }).mem_usages = st.mem_usages ++ [0]) ∧
    (collectStats [stalePayload]).sample_count = 1 ∧
    (collectStats [stalePayload]).cpu_usages.length = 0 := by
  obtain ⟨m, c, u⟩ := collect_lengths_aux payloads
    { cpu_usages := [], mem_usages := [], sample_count := 0 }
  simp only [List.length_nil, Nat.zero_add] at m c u
  refine ⟨?_, ?_, ?_, rfl, by decide⟩
  · unfold collectStats
    omega
  · unfold collectStats
    omega
  · intro st p
    simp [processSample, memUsageMB]

end IdealResource
